import Mathlib

/-!
Shallow embedding of the `stablex` repository's `fx_vault_dex` program
(pricing, fee allocation, liquidity accounting, reward distribution and
rebalancing), together with theorems settling the frozen claims.

Conventions of the embedding:
* `u64` values are `Nat` together with explicit `checked*` operations that
  fail (return `none`) exactly when the Rust `checked_add` / `checked_sub` /
  `checked_mul` / `checked_div` on `u64` would; `u128` intermediates get the
  wider bound `2 ^ 128`.
* `i64` timestamps are `Int`.
* Rust `f64` arithmetic (vault health, spread, drift, rebalance deficit) is
  modelled exactly over `ℚ`; the `as u16` / `as u64` float-to-integer casts
  truncate toward zero (hence `Int.floor.toNat` on the non-negative values
  that occur).  Every comparison decided by one of these rationals in a
  theorem below has been checked to agree with the IEEE-754 double result
  at the inputs involved.
* Fallible handlers are modelled with trace semantics: each handler returns
  the account state as written so far together with `Except err payload`,
  so a failure occurring after a field write is observable in the model,
  exactly as in the sequential Rust code before the runtime rolls back.
-/

/-! ## Constants (`src/programs/fx_vault_dex/src/state/constants.rs`) -/

/-- Modulus of the Rust `u64` type. -/
def U64_MOD : Nat := 2 ^ 64

/-- Modulus of the Rust `u128` type. -/
def U128_MOD : Nat := 2 ^ 128

/-- Oracle price scaling factor, 10^9. -/
def PRICE_SCALE : Nat := 1000000000

/-- Minimum spread, 3 basis points. -/
def MIN_SPREAD_BPS : Nat := 3

/-- Maximum spread, 50 basis points. -/
def MAX_SPREAD_BPS : Nat := 50

/-- Slope factor for spread calculation (`0.002833 : f64`). -/
def SPREAD_SLOPE : ℚ := 2833 / 1000000

/-- Slope factor for drift calculation (`0.008333 : f64`). -/
def DRIFT_SLOPE : ℚ := 8333 / 1000000

/-- Share of fees routed to LPs, percent. -/
def LP_FEE_PERCENT : Nat := 70

/-- Withdrawal penalty inside 60 hours, basis points. -/
def WITHDRAWAL_FEE_TIER_1 : Nat := 200

/-- Withdrawal penalty between 60 and 120 hours, basis points. -/
def WITHDRAWAL_FEE_TIER_2 : Nat := 150

/-- Withdrawal penalty between 120 and 180 hours, basis points. -/
def WITHDRAWAL_FEE_TIER_3 : Nat := 100

/-- Withdrawal penalty between 180 and 240 hours, basis points. -/
def WITHDRAWAL_FEE_TIER_4 : Nat := 50

/-- Withdrawal penalty after 240 hours, basis points. -/
def WITHDRAWAL_FEE_TIER_5 : Nat := 0

/-- 60 hours in seconds. -/
def HOURS_60_IN_SECONDS : Int := 60 * 60 * 60

/-- 120 hours in seconds. -/
def HOURS_120_IN_SECONDS : Int := 120 * 60 * 60

/-- 180 hours in seconds. -/
def HOURS_180_IN_SECONDS : Int := 180 * 60 * 60

/-- 240 hours in seconds. -/
def HOURS_240_IN_SECONDS : Int := 240 * 60 * 60

/-! ## Checked machine arithmetic -/

/-- `u64::checked_add`. -/
def checkedAdd (a b : Nat) : Option Nat :=
  if a + b < U64_MOD then some (a + b) else none

/-- `u64::checked_sub`. -/
def checkedSub (a b : Nat) : Option Nat :=
  if b ≤ a then some (a - b) else none

/-- `u64::checked_mul`. -/
def checkedMul (a b : Nat) : Option Nat :=
  if a * b < U64_MOD then some (a * b) else none

/-- `u64::checked_div` (fails only on division by zero). -/
def checkedDiv (a b : Nat) : Option Nat :=
  if b = 0 then none else some (a / b)

/-- `u128::checked_mul`. -/
def checkedMul128 (a b : Nat) : Option Nat :=
  if a * b < U128_MOD then some (a * b) else none

/-- `u128::checked_div` (fails only on division by zero). -/
def checkedDiv128 (a b : Nat) : Option Nat :=
  if b = 0 then none else some (a / b)

/-- `u128 -> u64` `try_into`, failing when the value does not fit. -/
def tryIntoU64 (a : Nat) : Option Nat :=
  if a < U64_MOD then some a else none

/-- `u64::saturating_add`. -/
def saturatingAdd (a b : Nat) : Nat :=
  min (a + b) (U64_MOD - 1)

/-- Rust `as u64` cast of a non-negative `f64` value (here an exact `ℚ`):
truncation toward zero, saturating at `u64::MAX`. -/
def f64ToU64 (q : ℚ) : Nat :=
  min ⌊q⌋.toNat (U64_MOD - 1)

/-! ## Core math (`src/programs/fx_vault_dex/src/utils/math.rs`) -/

/-- `calculate_vault_health`: `min(a,b)/max(a,b)`, `0` when either side is
zero (`math.rs` lines 60-69); `f64` modelled over `ℚ`. -/
def calculate_vault_health (amount_a amount_b : Nat) : ℚ :=
  if amount_a = 0 ∨ amount_b = 0 then 0
  else (min amount_a amount_b : ℚ) / (max amount_a amount_b : ℚ)

/-- `calculate_spread` (`math.rs` lines 7-25): spread in basis points from
vault health, with the `(spread_percentage * 100.0) as u16` truncation and
the `MAX_SPREAD_BPS` cap; `f64` modelled over `ℚ`. -/
def calculate_spread (amount_a amount_b : Nat) : Nat :=
  let vault_health := calculate_vault_health amount_a amount_b
  let min_spread : ℚ := (MIN_SPREAD_BPS : ℚ) * (1 / 100)
  let spread_percentage : ℚ :=
    if vault_health > 9 / 10 then min_spread
    else max min_spread (min_spread - SPREAD_SLOPE * (vault_health - 9 / 10))
  min ⌊spread_percentage * 100⌋.toNat MAX_SPREAD_BPS

/-- `calculate_drift` (`math.rs` lines 30-39): drift as a non-negative
fraction; `f64` modelled over `ℚ`. -/
def calculate_drift (amount_a amount_b : Nat) : ℚ :=
  let vault_health := calculate_vault_health amount_a amount_b
  if vault_health ≥ 9 / 10 then 0
  else max 0 (-(DRIFT_SLOPE * (vault_health - 9 / 10)))

/-- `calculate_fee_allocation` (`math.rs` lines 43-56): percentages of the
fee routed to the PDA treasury and the protocol, by vault-health tier. -/
def calculate_fee_allocation (amount_a amount_b : Nat) : Nat × Nat :=
  let vault_health := calculate_vault_health amount_a amount_b
  if vault_health > 7 / 10 then (15, 15)
  else if vault_health > 1 / 2 then (20, 10)
  else if vault_health > 3 / 10 then (25, 5)
  else (30, 0)

/-- Math error of `math.rs`. -/
inductive MathError where
  | MathOverflow
deriving DecidableEq, Repr

/-- `calculate_amount_out` (`math.rs` lines 72-133): swap output and fee
from the oracle price, spread and drift.  The drift adjustment mirrors
`(oracle_price as f64 * drift_percentage) as u64` followed by
`saturating_sub` / `saturating_add`. -/
def calculate_amount_out (amount_in oracle_price spread_bps : Nat)
    (drift_percentage : ℚ) (source_to_target : Bool) :
    Except MathError (Nat × Nat) :=
  let spread := spread_bps
  let drift_adjustment := f64ToU64 ((oracle_price : ℚ) * drift_percentage)
  let adjusted_oracle_price :=
    if source_to_target then oracle_price - drift_adjustment
    else saturatingAdd oracle_price drift_adjustment
  match (if source_to_target then
          (checkedMul128 amount_in adjusted_oracle_price).bind
            (fun x => checkedDiv128 x PRICE_SCALE)
        else
          (checkedMul128 amount_in PRICE_SCALE).bind
            (fun x => checkedDiv128 x adjusted_oracle_price)) with
  | none => .error .MathOverflow
  | some amount_out_before_fee =>
    match tryIntoU64 amount_out_before_fee with
    | none => .error .MathOverflow
    | some amount_out_before_fee_u64 =>
      match (checkedMul amount_out_before_fee_u64 spread).bind
              (fun x => checkedDiv x 10000) with
      | none => .error .MathOverflow
      | some fee_amount =>
        match checkedSub amount_out_before_fee_u64 fee_amount with
        | none => .error .MathOverflow
        | some amount_out => .ok (amount_out, fee_amount)

/-- `calculate_lp_rewards` (`math.rs` lines 136-157).  The final
`Ok(lp_rewards as u64)` is a plain narrowing cast of the `u128`, so it
wraps modulo `2^64` (it is not checked). -/
def calculate_lp_rewards (lp_amount total_rewards total_deposits : Nat) :
    Except MathError Nat :=
  if total_deposits = 0 then .ok 0
  else
    match (checkedMul128 lp_amount total_rewards).bind
            (fun x => checkedDiv128 x total_deposits) with
    | none => .error .MathOverflow
    | some lp_rewards => .ok (lp_rewards % U64_MOD)

/-! ## Account state
(`src/programs/fx_vault_dex/src/state/vault_account.rs`,
`src/programs/fx_vault_dex/src/state/lp_position.rs`);
only the financial / oracle fields touched by the handlers are modelled. -/

/-- Financial and oracle fields of `VaultAccount`. -/
structure VaultAccount where
  tvl : Nat
  accrued_lp_fees : Nat
  accrued_pda_fees : Nat
  accrued_protocol_fees : Nat
  last_fee_update : Int
  last_oracle_price : Nat
  last_update_timestamp : Int
deriving DecidableEq, Repr

/-- Position fields of `LPPosition`. -/
structure LPPosition where
  amount : Nat
  last_deposit_time : Int
  rewards_claimed : Nat
  last_rewards_claim_time : Int
deriving DecidableEq, Repr

/-! ## Handler error enums (one per instruction module, as in the source) -/

/-- Errors of `deposit_liquidity.rs`. -/
inductive DepositError where
  | MathOverflow
deriving DecidableEq, Repr

/-- Errors of `withdraw_liquidity.rs`. -/
inductive WithdrawError where
  | MathOverflow
  | InsufficientFunds
  | InsufficientVaultFunds
deriving DecidableEq, Repr

/-- Errors of `swap.rs`. -/
inductive SwapError where
  | MathOverflow
  | InsufficientLiquidity
  | SlippageExceeded
deriving DecidableEq, Repr

/-- Errors of `distribute_incentives.rs`. -/
inductive ClaimError where
  | MathOverflow
  | NoFeesToClaim
  | NoLiquidityProvided
  | RewardTooSmall
deriving DecidableEq, Repr

/-- Errors of `rebalance_vault.rs`. -/
inductive RebalanceError where
  | MathOverflow
  | NoRebalanceNeeded
  | InsufficientInjectionAmount
deriving DecidableEq, Repr

/-! ## Handlers, trace semantics

Each handler returns the account state as updated by the writes performed
before returning, paired with the instruction result.  Token transfers move
SPL balances, not the modelled account fields, and in every handler they
precede all modelled writes, so they are not represented. -/

/-- `deposit_liquidity::handler` (lines 43-71): the TVL write at line 62
precedes the position write at line 65, each through checked adds. -/
def deposit_liquidity_handler (amount : Nat) (now : Int)
    (vault_account : VaultAccount) (lp_position : LPPosition) :
    (VaultAccount × LPPosition) × Option DepositError :=
  match checkedAdd vault_account.tvl amount with
  | none => ((vault_account, lp_position), some .MathOverflow)
  | some t =>
    let vault1 := { vault_account with tvl := t }
    match checkedAdd lp_position.amount amount with
    | none => ((vault1, lp_position), some .MathOverflow)
    | some a =>
      ((vault1, { lp_position with amount := a, last_deposit_time := now }),
        none)

/-- Withdrawal penalty tier selection inlined in
`withdraw_liquidity::handler` lines 81-91. -/
def withdrawal_fee_bps (time_since_deposit : Int) : Nat :=
  if time_since_deposit < HOURS_60_IN_SECONDS then WITHDRAWAL_FEE_TIER_1
  else if time_since_deposit < HOURS_120_IN_SECONDS then WITHDRAWAL_FEE_TIER_2
  else if time_since_deposit < HOURS_180_IN_SECONDS then WITHDRAWAL_FEE_TIER_3
  else if time_since_deposit < HOURS_240_IN_SECONDS then WITHDRAWAL_FEE_TIER_4
  else WITHDRAWAL_FEE_TIER_5

/-- `withdraw_liquidity::handler` (lines 67-158).  On success the payload is
the net amount transferred to the provider (`withdraw_amount`). -/
def withdraw_liquidity_handler (amount : Nat) (now : Int)
    (vault_account : VaultAccount) (lp_position : LPPosition) :
    (VaultAccount × LPPosition) × Except WithdrawError Nat :=
  if lp_position.amount < amount then
    ((vault_account, lp_position), .error .InsufficientFunds)
  else if vault_account.tvl < amount then
    ((vault_account, lp_position), .error .InsufficientVaultFunds)
  else
    let time_since_deposit := now - lp_position.last_deposit_time
    let fee_bps := withdrawal_fee_bps time_since_deposit
    match (if fee_bps > 0 then
            (checkedMul amount fee_bps).bind (fun x => checkedDiv x 10000)
          else some 0) with
    | none => ((vault_account, lp_position), .error .MathOverflow)
    | some penalty_amount =>
      match checkedSub amount penalty_amount with
      | none => ((vault_account, lp_position), .error .MathOverflow)
      | some withdraw_amount =>
        match checkedSub vault_account.tvl amount with
        | none => ((vault_account, lp_position), .error .MathOverflow)
        | some t =>
          let vault1 := { vault_account with tvl := t }
          match checkedSub lp_position.amount amount with
          | none => ((vault1, lp_position), .error .MathOverflow)
          | some a =>
            ((vault1, { lp_position with amount := a }), .ok withdraw_amount)

/-- Success payload of `swap::handler`. -/
structure SwapResult where
  amount_out : Nat
  fee_amount : Nat
  lp_fee_amount : Nat
  pda_fee_amount : Nat
  protocol_fee_amount : Nat
deriving DecidableEq, Repr

/-- `swap::handler` (lines 66-166): pricing, slippage and liquidity checks,
then the TVL writes (lines 149, 152) and the fee-bucket writes on the
target vault (lines 153-156), then the oracle fields on the source vault
(lines 159-160). -/
def swap_handler (amount_in minimum_amount_out oracle_price : Nat)
    (now : Int) (source_vault target_vault : VaultAccount) :
    (VaultAccount × VaultAccount) × Except SwapError SwapResult :=
  let source_amount := source_vault.tvl
  let target_amount := target_vault.tvl
  let spread_bps := calculate_spread source_amount target_amount
  let drift_percentage := calculate_drift source_amount target_amount
  match calculate_amount_out amount_in oracle_price spread_bps
          drift_percentage true with
  | .error _ => ((source_vault, target_vault), .error .MathOverflow)
  | .ok (amount_out, fee_amount) =>
    if amount_out < minimum_amount_out then
      ((source_vault, target_vault), .error .SlippageExceeded)
    else if target_vault.tvl < amount_out then
      ((source_vault, target_vault), .error .InsufficientLiquidity)
    else
      let pcts := calculate_fee_allocation source_amount target_amount
      match (checkedMul fee_amount LP_FEE_PERCENT).bind
              (fun x => checkedDiv x 100) with
      | none => ((source_vault, target_vault), .error .MathOverflow)
      | some lp_fee_amount =>
      match (checkedMul fee_amount pcts.1).bind (fun x => checkedDiv x 100) with
      | none => ((source_vault, target_vault), .error .MathOverflow)
      | some pda_fee_amount =>
      match (checkedMul fee_amount pcts.2).bind (fun x => checkedDiv x 100) with
      | none => ((source_vault, target_vault), .error .MathOverflow)
      | some protocol_fee_amount =>
      match checkedAdd source_vault.tvl amount_in with
      | none => ((source_vault, target_vault), .error .MathOverflow)
      | some st =>
      let source1 := { source_vault with tvl := st }
      match checkedSub target_vault.tvl amount_out with
      | none => ((source1, target_vault), .error .MathOverflow)
      | some tt =>
      let target1 := { target_vault with tvl := tt }
      match checkedAdd target1.accrued_lp_fees lp_fee_amount with
      | none => ((source1, target1), .error .MathOverflow)
      | some f1 =>
      let target2 := { target1 with accrued_lp_fees := f1 }
      match checkedAdd target2.accrued_pda_fees pda_fee_amount with
      | none => ((source1, target2), .error .MathOverflow)
      | some f2 =>
      let target3 := { target2 with accrued_pda_fees := f2 }
      match checkedAdd target3.accrued_protocol_fees protocol_fee_amount with
      | none => ((source1, target3), .error .MathOverflow)
      | some f3 =>
      let target4 := { target3 with accrued_protocol_fees := f3,
                                    last_fee_update := now }
      let source2 := { source1 with last_oracle_price := oracle_price,
                                    last_update_timestamp := now }
      ((source2, target4),
        .ok ⟨amount_out, fee_amount, lp_fee_amount, pda_fee_amount,
             protocol_fee_amount⟩)

/-- `distribute_incentives::handler` (lines 51-104).  On success the payload
is the reward paid out. -/
def distribute_incentives_handler (now : Int)
    (vault_account : VaultAccount) (lp_position : LPPosition) :
    (VaultAccount × LPPosition) × Except ClaimError Nat :=
  if vault_account.accrued_lp_fees = 0 then
    ((vault_account, lp_position), .error .NoFeesToClaim)
  else if lp_position.amount = 0 then
    ((vault_account, lp_position), .error .NoLiquidityProvided)
  else
    match calculate_lp_rewards lp_position.amount
            vault_account.accrued_lp_fees vault_account.tvl with
    | .error _ => ((vault_account, lp_position), .error .MathOverflow)
    | .ok reward_amount =>
      if reward_amount = 0 then
        ((vault_account, lp_position), .error .RewardTooSmall)
      else
        match checkedSub vault_account.accrued_lp_fees reward_amount with
        | none => ((vault_account, lp_position), .error .MathOverflow)
        | some f =>
          let vault1 := { vault_account with accrued_lp_fees := f }
          match checkedAdd lp_position.rewards_claimed reward_amount with
          | none => ((vault1, lp_position), .error .MathOverflow)
          | some rc =>
            ((vault1, { lp_position with rewards_claimed := rc,
                                         last_rewards_claim_time := now }),
              .ok reward_amount)

/-- `rebalance_vault::handler` (lines 73-138).  On success the payload is
the injection amount; `f64` deficit arithmetic modelled over `ℚ`, with the
`as u64` truncating-saturating cast (negative values clamp to zero). -/
def rebalance_vault_handler (amount oracle_price : Nat) (now : Int)
    (source_vault target_vault : VaultAccount) :
    (VaultAccount × VaultAccount) × Except RebalanceError Nat :=
  let source_amount := source_vault.tvl
  let target_amount := target_vault.tvl
  let vault_health := calculate_vault_health source_amount target_amount
  match (if 2 / 5 ≤ vault_health ∧ vault_health < 1 / 2 then
          some ((3 : ℚ) / 10)
        else if 3 / 10 ≤ vault_health ∧ vault_health < 2 / 5 then
          some ((1 : ℚ) / 2)
        else if 1 / 5 ≤ vault_health ∧ vault_health < 3 / 10 then
          some ((3 : ℚ) / 4)
        else none) with
  | none => ((source_vault, target_vault), .error .NoRebalanceNeeded)
  | some injection_rate =>
    let smaller_amount : ℚ := (min source_amount target_amount : Nat)
    let larger_amount : ℚ := (max source_amount target_amount : Nat)
    let deficit := larger_amount - smaller_amount / vault_health
    let injection_amount := f64ToU64 (deficit * injection_rate)
    if amount < injection_amount then
      ((source_vault, target_vault), .error .InsufficientInjectionAmount)
    else
      match checkedAdd target_vault.tvl injection_amount with
      | none => ((source_vault, target_vault), .error .MathOverflow)
      | some tt =>
        let target1 := { target_vault with tvl := tt }
        let source1 := { source_vault with
                           last_oracle_price := oracle_price,
                           last_update_timestamp := now }
        ((source1, target1), .ok injection_amount)

/-! ## Oracle adapter (`src/programs/fx_vault_dex/src/utils/fx_oracle.rs`) -/

/-- Errors of `fx_oracle.rs`. -/
inductive OracleError where
  | InvalidOracleAccount
  | StaleOraclePrice
  | NegativeOraclePrice
  | MathOverflow
deriving DecidableEq, Repr

/-- A Pyth price reading: raw price and exponent. -/
structure PythPrice where
  price : Int
  expo : Int
deriving DecidableEq, Repr

/-- The oracle account as seen by `get_oracle_price`: either the feed fails
to load, or it loads and `get_current_price` yields `none` (stale) or a
reading. -/
inductive OracleAccount where
  | invalid
  | valid (current : Option PythPrice)
deriving DecidableEq, Repr

/-- `get_oracle_price` (`fx_oracle.rs` lines 6-50): staleness and
negativity checks, then exponent normalisation to the `10^9` scale. -/
def get_oracle_price (acc : OracleAccount) : Except OracleError Nat :=
  match acc with
  | .invalid => .error .InvalidOracleAccount
  | .valid none => .error .StaleOraclePrice
  | .valid (some price) =>
    if price.price < 0 then .error .NegativeOraclePrice
    else
      let price_value := price.price.toNat
      if price.expo < 0 then
        let exponent_abs := (-price.expo).toNat
        if exponent_abs < 9 then
          match checkedMul price_value (10 ^ (9 - exponent_abs)) with
          | none => .error .MathOverflow
          | some v => .ok v
        else if exponent_abs > 9 then
          match checkedDiv price_value (10 ^ (exponent_abs - 9)) with
          | none => .error .MathOverflow
          | some v => .ok v
        else .ok price_value
      else
        match checkedMul price_value (10 ^ (9 + price.expo.toNat)) with
        | none => .error .MathOverflow
        | some v => .ok v

/-- Decidable equality for `Except`, for evaluating handler results on
concrete inputs. -/
instance {ε α : Type} [DecidableEq ε] [DecidableEq α] :
    DecidableEq (Except ε α) := fun x y =>
  match x, y with
  | .error a, .error b =>
    match decEq a b with
    | isTrue h => isTrue (by rw [h])
    | isFalse h => isFalse (fun hc => h (by cases hc; rfl))
  | .error _, .ok _ => isFalse (fun hc => Except.noConfusion hc)
  | .ok _, .error _ => isFalse (fun hc => Except.noConfusion hc)
  | .ok a, .ok b =>
    match decEq a b with
    | isTrue h => isTrue (by rw [h])
    | isFalse h => isFalse (fun hc => h (by cases hc; rfl))

/-! ## Concrete fixtures for witnesses and counterexamples -/

/-- A vault with the given TVL and all other fields zero. -/
def testVault (tvl : Nat) : VaultAccount :=
  { tvl := tvl, accrued_lp_fees := 0, accrued_pda_fees := 0,
    accrued_protocol_fees := 0, last_fee_update := 0, last_oracle_price := 0,
    last_update_timestamp := 0 }

/-- A position with the given amount and all other fields zero. -/
def testPosition (amount : Nat) : LPPosition :=
  { amount := amount, last_deposit_time := 0, rewards_claimed := 0,
    last_rewards_claim_time := 0 }

/-! ## Helper lemmas on checked arithmetic -/

theorem checkedAdd_eq_some {a b c : Nat} (h : checkedAdd a b = some c) :
    c = a + b ∧ a + b < U64_MOD := by
  unfold checkedAdd at h
  split_ifs at h with hb
  · exact ⟨(Option.some.injEq _ _).mp h.symm, hb⟩

theorem checkedSub_eq_some {a b c : Nat} (h : checkedSub a b = some c) :
    c = a - b ∧ b ≤ a := by
  unfold checkedSub at h
  split_ifs at h with hb
  · exact ⟨(Option.some.injEq _ _).mp h.symm, hb⟩

theorem checkedMul_eq_some {a b c : Nat} (h : checkedMul a b = some c) :
    c = a * b ∧ a * b < U64_MOD := by
  unfold checkedMul at h
  split_ifs at h with hb
  · exact ⟨(Option.some.injEq _ _).mp h.symm, hb⟩

theorem checkedDiv_eq_some {a b c : Nat} (h : checkedDiv a b = some c) :
    c = a / b ∧ b ≠ 0 := by
  unfold checkedDiv at h
  split_ifs at h with hb
  · exact ⟨(Option.some.injEq _ _).mp h.symm, hb⟩

theorem checkedSub_of_le {a b : Nat} (h : b ≤ a) :
    checkedSub a b = some (a - b) := by
  unfold checkedSub
  exact if_pos h

/-! ## Helper lemmas on vault health -/

theorem calculate_vault_health_nonneg (a b : Nat) :
    0 ≤ calculate_vault_health a b := by
  unfold calculate_vault_health
  split_ifs with h
  · exact le_refl 0
  · exact div_nonneg (le_min (Nat.cast_nonneg a) (Nat.cast_nonneg b))
      (le_trans (Nat.cast_nonneg a) (le_max_left _ _))

theorem calculate_vault_health_le_one (a b : Nat) :
    calculate_vault_health a b ≤ 1 := by
  unfold calculate_vault_health
  split_ifs with h
  · norm_num
  · push_neg at h
    have hmax : (0 : ℚ) < (a : ℚ) ⊔ (b : ℚ) := by
      have ha : (0 : ℚ) < (a : ℚ) := by
        exact_mod_cast Nat.pos_of_ne_zero h.1
      exact lt_of_lt_of_le ha (le_max_left _ _)
    rw [div_le_one hmax]
    exact le_trans (min_le_left _ _) (le_max_left _ _)

/-- In every health tier the PDA and protocol percentages sum to 30. -/
theorem calculate_fee_allocation_sum (a b : Nat) :
    (calculate_fee_allocation a b).1 + (calculate_fee_allocation a b).2 = 30 := by
  unfold calculate_fee_allocation
  dsimp only
  split_ifs <;> rfl

/-- The spread computed by the source is 3 basis points for every pair of
vault balances: the slope term `SPREAD_SLOPE * (health - 0.9)` is a plain
fraction (at most `0.002833 * 0.9 ≈ 0.00255` in magnitude) subtracted from
the floor expressed in percent units (`0.03`), so the computed percentage
always lies in `[0.03, 0.0326)` and `(· * 100.0) as u16` truncates it
to 3. -/
theorem calculate_spread_eq_three (a b : Nat) : calculate_spread a b = 3 := by
  unfold calculate_spread
  dsimp only
  have h0 : 0 ≤ calculate_vault_health a b := calculate_vault_health_nonneg a b
  have h1 : calculate_vault_health a b ≤ 1 := calculate_vault_health_le_one a b
  by_cases hc : calculate_vault_health a b > 9 / 10
  · rw [if_pos hc]
    norm_num [MIN_SPREAD_BPS, MAX_SPREAD_BPS]
    rfl
  · rw [if_neg hc]
    have hfl : ⌊(((MIN_SPREAD_BPS : ℚ) * (1 / 100)) ⊔
        ((MIN_SPREAD_BPS : ℚ) * (1 / 100) -
          SPREAD_SLOPE * (calculate_vault_health a b - 9 / 10)))
          * 100⌋ = 3 := by
      rw [Int.floor_eq_iff]
      have hms : ((MIN_SPREAD_BPS : ℚ) * (1 / 100)) = 3 / 100 := by
        norm_num [MIN_SPREAD_BPS]
      rw [hms]
      constructor
      · have hlo : (3 / 100 : ℚ) ≤ (3 / 100 : ℚ) ⊔
            (3 / 100 - SPREAD_SLOPE * (calculate_vault_health a b - 9 / 10)) :=
          le_max_left _ _
        push_cast
        nlinarith
      · have hcap : (3 / 100 : ℚ) ⊔
            (3 / 100 - SPREAD_SLOPE * (calculate_vault_health a b - 9 / 10))
              ≤ 3 / 100 + 2833 / 1000000 * (9 / 10) := by
          apply max_le
          · norm_num
          · unfold SPREAD_SLOPE
            nlinarith
        push_cast
        nlinarith
    rw [hfl]
    rfl

/-! ## Claim C5 -/

/-- Claim C5 (confirmed): the withdrawal penalty is a non-increasing step
function of elapsed time taking the values 200, 150, 100, 50, 0 basis
points on the half-open tiers bounded at 60h, 120h, 180h, 240h; at elapsed
time 0 the 200 bps tier applies and at exactly a boundary the next lower
tier applies. -/
theorem claim5_withdrawal_penalty_schedule :
    (∀ t1 t2 : Int, t1 ≤ t2 → withdrawal_fee_bps t2 ≤ withdrawal_fee_bps t1) ∧
    withdrawal_fee_bps 0 = 200 ∧
    withdrawal_fee_bps HOURS_60_IN_SECONDS = 150 ∧
    (∀ t : Int, t < HOURS_60_IN_SECONDS → withdrawal_fee_bps t = 200) ∧
    (∀ t : Int, HOURS_60_IN_SECONDS ≤ t → t < HOURS_120_IN_SECONDS →
      withdrawal_fee_bps t = 150) ∧
    (∀ t : Int, HOURS_120_IN_SECONDS ≤ t → t < HOURS_180_IN_SECONDS →
      withdrawal_fee_bps t = 100) ∧
    (∀ t : Int, HOURS_180_IN_SECONDS ≤ t → t < HOURS_240_IN_SECONDS →
      withdrawal_fee_bps t = 50) ∧
    (∀ t : Int, HOURS_240_IN_SECONDS ≤ t → withdrawal_fee_bps t = 0) := by
  refine ⟨?_, ?_, ?_, ?_, ?_, ?_, ?_, ?_⟩
  all_goals
    simp only [withdrawal_fee_bps, HOURS_60_IN_SECONDS, HOURS_120_IN_SECONDS,
      HOURS_180_IN_SECONDS, HOURS_240_IN_SECONDS, WITHDRAWAL_FEE_TIER_1,
      WITHDRAWAL_FEE_TIER_2, WITHDRAWAL_FEE_TIER_3, WITHDRAWAL_FEE_TIER_4,
      WITHDRAWAL_FEE_TIER_5]
  · intro t1 t2 hle
    split_ifs <;> omega
  · split_ifs <;> omega
  · split_ifs <;> omega
  · intro t ht
    split_ifs <;> omega
  · intro t ht1 ht2
    split_ifs <;> omega
  · intro t ht1 ht2
    split_ifs <;> omega
  · intro t ht1 ht2
    split_ifs <;> omega
  · intro t ht
    split_ifs <;> omega

/-- Witness for C5: the theorem applied at concrete elapsed times. -/
theorem claim5_witness :
    withdrawal_fee_bps 300000 ≤ withdrawal_fee_bps 0 ∧
    withdrawal_fee_bps 300000 = 150 :=
  ⟨claim5_withdrawal_penalty_schedule.1 0 300000 (by norm_num),
   claim5_withdrawal_penalty_schedule.2.2.2.2.1 300000
     (by norm_num [HOURS_60_IN_SECONDS]) (by norm_num [HOURS_120_IN_SECONDS])⟩

/-! ## Claim C9 -/

/-- Claim C9 (confirmed): with balances 9500/10000 (vault health 0.95) the
spread is at the 3 bps floor and drift is 0; for `amount_in = 1000000` at
oracle price `1100000000` in the source-to-target direction the pre-fee
output is 1100000, the fee is 330 and the final output is 1099670. -/
theorem claim9_swap_scenario :
    calculate_vault_health 9500 10000 = 19 / 20 ∧
    calculate_spread 9500 10000 = 3 ∧
    calculate_drift 9500 10000 = 0 ∧
    calculate_amount_out 1000000 1100000000 3 0 true =
      .ok (1099670, 330) ∧
    1099670 + 330 = 1100000 := by
  refine ⟨?_, ?_, ?_, ?_, by norm_num⟩
  · norm_num [calculate_vault_health]
  · norm_num [calculate_spread, calculate_vault_health, MIN_SPREAD_BPS,
      MAX_SPREAD_BPS]
    rfl
  · norm_num [calculate_drift, calculate_vault_health]
  · norm_num [calculate_amount_out, f64ToU64, checkedMul128, checkedDiv128,
      checkedMul, checkedDiv, checkedSub, tryIntoU64, U64_MOD, U128_MOD,
      PRICE_SCALE, Option.bind]

/-! ## Claim C4 -/

/-- Claim C4 (code bug exhibited): the claim says the spread equals
`max(MIN_SPREAD, MIN_SPREAD - SPREAD_SLOPE x (health - 0.9))` capped at
`MAX_SPREAD`, widening linearly below health 0.9 up to the 50 bps ceiling.
In the code the slope term is scaled as a bare fraction against a floor
held in percent units, so `calculate_spread` returns exactly 3 basis
points for every pair of balances: it never widens and never reaches the
50 bps cap, contradicting the formula documented on the function itself. -/
theorem claim4_spread_never_widens (a b : Nat) : calculate_spread a b = 3 :=
  calculate_spread_eq_three a b

/-! ## Claim C8 -/

/-- Claim C8 counterexample: a fresh, valid quote whose value is zero is
not rejected; `get_oracle_price` hands it to the caller as `Ok 0`. -/
theorem claim8_counterexample :
    get_oracle_price (.valid (some ⟨0, -9⟩)) = .ok 0 := by
  norm_num [get_oracle_price]

/-- Claim C8 (amended): the oracle adapter rejects an unloadable account,
a stale quote and a negative price, but a zero price is passed through as
valid (`Ok 0`), so only the stale and negative cases of the claim hold. -/
theorem claim8_amended :
    get_oracle_price .invalid = .error .InvalidOracleAccount ∧
    get_oracle_price (.valid none) = .error .StaleOraclePrice ∧
    (∀ p : PythPrice, p.price < 0 →
      get_oracle_price (.valid (some p)) = .error .NegativeOraclePrice) := by
  refine ⟨rfl, rfl, ?_⟩
  intro p hp
  unfold get_oracle_price
  dsimp only
  rw [if_pos hp]

/-- Witness for C8: the amended theorem applied to a negative quote. -/
theorem claim8_witness :
    get_oracle_price (.valid (some ⟨-1, -9⟩)) = .error .NegativeOraclePrice :=
  claim8_amended.2.2 ⟨-1, -9⟩ (by norm_num)

/-! ## Claim C3 -/

/-- The rebalance band selection yields no rate exactly when health is
below 0.20 or at least 0.50; in particular health exactly 0.20 falls in
the 75 percent band. -/
theorem rebalance_rate_none_iff (h : ℚ) :
    (if 2 / 5 ≤ h ∧ h < 1 / 2 then some ((3 : ℚ) / 10)
     else if 3 / 10 ≤ h ∧ h < 2 / 5 then some ((1 : ℚ) / 2)
     else if 1 / 5 ≤ h ∧ h < 3 / 10 then some ((3 : ℚ) / 4)
     else none) = none ↔ (h < 1 / 5 ∨ 1 / 2 ≤ h) := by
  split_ifs with h1 h2 h3
  · simp only [reduceCtorEq, false_iff]
    push_neg
    exact ⟨by linarith [h1.1], by linarith [h1.2]⟩
  · simp only [reduceCtorEq, false_iff]
    push_neg
    exact ⟨by linarith [h2.1], by linarith [h2.2]⟩
  · simp only [reduceCtorEq, false_iff]
    push_neg
    exact ⟨by linarith [h3.1], by linarith [h3.2]⟩
  · simp only [true_iff]
    by_cases hlow : h < 1 / 5
    · exact Or.inl hlow
    · push_neg at hlow h1 h2 h3
      have c3 := h3 hlow
      have c2 := h2 (by linarith)
      have c1 := h1 (by linarith)
      exact Or.inr (by linarith)

/-- Claim C3 counterexample: with source TVL 1000, target TVL 200 (health
exactly 0.20) and available amount 10000, the handler does not return
`NoRebalanceNeeded`; it proceeds in the 75 percent band and succeeds with
injection 0 (the deficit formula cancels to zero). -/
theorem claim3_counterexample :
    (rebalance_vault_handler 10000 1000000000 0
        (testVault 1000) (testVault 200)).2 = Except.ok 0 ∧
    (rebalance_vault_handler 10000 1000000000 0
        (testVault 1000) (testVault 200)).2
      ≠ Except.error RebalanceError.NoRebalanceNeeded := by
  have h : (rebalance_vault_handler 10000 1000000000 0
      (testVault 1000) (testVault 200)).2 = Except.ok 0 := by
    norm_num [rebalance_vault_handler, calculate_vault_health, testVault,
      f64ToU64, checkedAdd, U64_MOD]
  refine ⟨h, ?_⟩
  rw [h]
  simp

/-- Claim C3 (amended): the rebalance handler reports `NoRebalanceNeeded`
exactly when the pair's health is below 0.20 or at least 0.50 - the 0.20
boundary itself is included in the critical band, so at health exactly
0.20 the rebalance proceeds (returning the computed injection) instead of
refusing. -/
theorem claim3_amended (amount oracle_price : Nat) (now : Int)
    (sv tv : VaultAccount) :
    (rebalance_vault_handler amount oracle_price now sv tv).2
        = Except.error RebalanceError.NoRebalanceNeeded
      ↔ (calculate_vault_health sv.tvl tv.tvl < 1 / 5 ∨
          1 / 2 ≤ calculate_vault_health sv.tvl tv.tvl) := by
  rw [← rebalance_rate_none_iff (calculate_vault_health sv.tvl tv.tvl)]
  unfold rebalance_vault_handler
  dsimp only
  rcases hrate : (if 2 / 5 ≤ calculate_vault_health sv.tvl tv.tvl ∧
      calculate_vault_health sv.tvl tv.tvl < 1 / 2 then some ((3 : ℚ) / 10)
    else if 3 / 10 ≤ calculate_vault_health sv.tvl tv.tvl ∧
        calculate_vault_health sv.tvl tv.tvl < 2 / 5 then some ((1 : ℚ) / 2)
    else if 1 / 5 ≤ calculate_vault_health sv.tvl tv.tvl ∧
        calculate_vault_health sv.tvl tv.tvl < 3 / 10 then some ((3 : ℚ) / 4)
    else none) with _ | rate
  · simp
  · dsimp only
    split
    · simp
    · split
      · simp
      · simp

/-! ## Claim C10 -/

/-- Claim C10 (confirmed): a successful rebalance only raises the target
vault's TVL by exactly the injection amount and refreshes the source
vault's oracle fields; the source TVL and every fee bucket of both vaults
are untouched (the injection is funded by the rebalancer treasury). -/
theorem claim10_rebalance_frame (amount oracle_price : Nat) (now : Int)
    (sv tv : VaultAccount) (s : VaultAccount × VaultAccount) (inj : Nat)
    (h : rebalance_vault_handler amount oracle_price now sv tv = (s, .ok inj)) :
    s.2.tvl = tv.tvl + inj ∧
    s.1.tvl = sv.tvl ∧
    s.1.accrued_lp_fees = sv.accrued_lp_fees ∧
    s.1.accrued_pda_fees = sv.accrued_pda_fees ∧
    s.1.accrued_protocol_fees = sv.accrued_protocol_fees ∧
    s.1.last_fee_update = sv.last_fee_update ∧
    s.1.last_oracle_price = oracle_price ∧
    s.1.last_update_timestamp = now ∧
    s.2.accrued_lp_fees = tv.accrued_lp_fees ∧
    s.2.accrued_pda_fees = tv.accrued_pda_fees ∧
    s.2.accrued_protocol_fees = tv.accrued_protocol_fees ∧
    s.2.last_fee_update = tv.last_fee_update ∧
    s.2.last_oracle_price = tv.last_oracle_price ∧
    s.2.last_update_timestamp = tv.last_update_timestamp := by
  unfold rebalance_vault_handler at h
  dsimp only at h
  split at h
  · simp at h
  · split at h
    · simp at h
    · split at h
      · simp at h
      · rename_i tt heq
        obtain ⟨htt, -⟩ := checkedAdd_eq_some heq
        injection h with h1 h2
        injection h2 with h3
        subst h1
        subst h3
        exact ⟨htt, rfl, rfl, rfl, rfl, rfl, rfl, rfl, rfl, rfl, rfl, rfl,
          rfl, rfl⟩

/-- Witness for C10: the frame theorem applied to a concrete successful
rebalance (health 0.25, 75 percent band, injection 0). -/
theorem claim10_witness :
    ((⟨1000, 0, 0, 0, 0, 5, 7⟩, ⟨250, 0, 0, 0, 0, 0, 0⟩) :
        VaultAccount × VaultAccount).2.tvl = (testVault 250).tvl + 0 ∧
    ((⟨1000, 0, 0, 0, 0, 5, 7⟩, ⟨250, 0, 0, 0, 0, 0, 0⟩) :
        VaultAccount × VaultAccount).1.tvl = (testVault 1000).tvl := by
  have h : rebalance_vault_handler 10000 5 7 (testVault 1000) (testVault 250)
      = ((⟨1000, 0, 0, 0, 0, 5, 7⟩, ⟨250, 0, 0, 0, 0, 0, 0⟩), .ok 0) := by
    norm_num [rebalance_vault_handler, calculate_vault_health, testVault,
      f64ToU64, checkedAdd, U64_MOD]
  have hc := claim10_rebalance_frame 10000 5 7 (testVault 1000)
    (testVault 250) (⟨1000, 0, 0, 0, 0, 5, 7⟩, ⟨250, 0, 0, 0, 0, 0, 0⟩) 0 h
  exact ⟨hc.1, hc.2.1⟩

/-! ## Claim C2 -/

/-- Claim C2 counterexample: a deposit into a vault whose position already
holds `u64::MAX` reports `MathOverflow` only after the vault TVL has been
written, so the failing operation does not leave all fields unchanged. -/
theorem claim2_counterexample :
    (deposit_liquidity_handler 1 0 (testVault 0)
        (testPosition 18446744073709551615)).2 = some DepositError.MathOverflow ∧
    (deposit_liquidity_handler 1 0 (testVault 0)
        (testPosition 18446744073709551615)).1.1.tvl = 1 ∧
    (testVault 0).tvl = 0 := by
  refine ⟨?_, ?_, rfl⟩ <;>
    norm_num [deposit_liquidity_handler, checkedAdd, testVault, testPosition,
      U64_MOD]

/-- Claim C2 (amended): for the withdraw and rebalance handlers every
error leaves the modelled vault and position fields exactly as they were;
the deposit, swap and reward-claim handlers can instead report an
arithmetic-overflow error after an earlier field write (all their explicit
validation checks do precede every write). -/
theorem claim2_no_writes_on_error :
    (∀ (amount : Nat) (now : Int) (v : VaultAccount) (p : LPPosition)
        (s : VaultAccount × LPPosition) (e : WithdrawError),
      withdraw_liquidity_handler amount now v p = (s, .error e) → s = (v, p)) ∧
    (∀ (amount oracle_price : Nat) (now : Int) (sv tv : VaultAccount)
        (s : VaultAccount × VaultAccount) (e : RebalanceError),
      rebalance_vault_handler amount oracle_price now sv tv = (s, .error e) →
        s = (sv, tv)) := by
  constructor
  · intro amount now v p s e h
    unfold withdraw_liquidity_handler at h
    dsimp only at h
    split_ifs at h with h1 h2 h3
    · injection h with ha hb
      exact ha.symm
    · injection h with ha hb
      exact ha.symm
    · split at h
      · injection h with ha hb
        exact ha.symm
      · split at h
        · injection h with ha hb
          exact ha.symm
        · split at h
          · injection h with ha hb
            exact ha.symm
          · split at h
            · rename_i heq
              rw [checkedSub_of_le (by omega : amount ≤ p.amount)] at heq
              simp at heq
            · simp at h
    · dsimp only at h
      split at h
      · injection h with ha hb
        exact ha.symm
      · split at h
        · injection h with ha hb
          exact ha.symm
        · split at h
          · rename_i heq
            rw [checkedSub_of_le (by omega : amount ≤ p.amount)] at heq
            simp at heq
          · simp at h
  · intro amount oracle_price now sv tv s e h
    unfold rebalance_vault_handler at h
    dsimp only at h
    split at h
    · injection h with ha hb
      exact ha.symm
    · split at h
      · injection h with ha hb
        exact ha.symm
      · split at h
        · injection h with ha hb
          exact ha.symm
        · simp at h

/-- Witness for C2: the amended theorem applied to a concrete failing
withdrawal (amount exceeds the position). -/
theorem claim2_witness :
    withdraw_liquidity_handler 5 0 (testVault 0) (testPosition 0)
      = ((testVault 0, testPosition 0), .error .InsufficientFunds) ∧
    (testVault 0, testPosition 0) = (testVault 0, testPosition 0) := by
  have h : withdraw_liquidity_handler 5 0 (testVault 0) (testPosition 0)
      = ((testVault 0, testPosition 0), .error .InsufficientFunds) := by
    norm_num [withdraw_liquidity_handler, testVault, testPosition]
  exact ⟨h, claim2_no_writes_on_error.1 5 0 (testVault 0) (testPosition 0)
    (testVault 0, testPosition 0) .InsufficientFunds h⟩

/-! ## Claim C6 -/

/-- A deposit whose two checked additions fit in `u64` succeeds and writes
the vault TVL, the position amount and the deposit timestamp. -/
theorem deposit_liquidity_handler_success (amount : Nat) (now : Int)
    (v : VaultAccount) (p : LPPosition)
    (h1 : v.tvl + amount < U64_MOD) (h2 : p.amount + amount < U64_MOD) :
    deposit_liquidity_handler amount now v p
      = (({ v with tvl := v.tvl + amount },
          { p with amount := p.amount + amount, last_deposit_time := now }),
         none) := by
  unfold deposit_liquidity_handler
  rw [show checkedAdd v.tvl amount = some (v.tvl + amount) by
    unfold checkedAdd; exact if_pos h1]
  dsimp only
  rw [show checkedAdd p.amount amount = some (p.amount + amount) by
    unfold checkedAdd; exact if_pos h2]

/-- Claim C6 counterexample: deposit 1 then withdraw 1 at elapsed time 0.
The code pays out 1 (the floored penalty `1 * 200 / 10000` is 0), while
the claimed payout `amount * (10000 - 200) / 10000` is 0. -/
theorem claim6_counterexample :
    (withdraw_liquidity_handler 1 0
        (deposit_liquidity_handler 1 0 (testVault 0) (testPosition 0)).1.1
        (deposit_liquidity_handler 1 0 (testVault 0) (testPosition 0)).1.2).2
      = Except.ok 1 ∧ 1 * (10000 - 200) / 10000 = 0 := by
  constructor
  · decide
  · decide

/-- Claim C6 (amended): depositing `amount` and immediately withdrawing
`amount` at elapsed time 0 succeeds (whenever the deposit additions and
the penalty multiplication fit in `u64`), pays out
`amount - amount * 200 / 10000` (the floored tier-1 penalty carved out of
the payout), and returns the vault TVL and the position amount exactly to
their pre-deposit values. -/
theorem claim6_roundtrip (amount : Nat) (now : Int) (v : VaultAccount)
    (p : LPPosition) (h1 : v.tvl + amount < U64_MOD)
    (h2 : p.amount + amount < U64_MOD) (h3 : amount * 200 < U64_MOD) :
    (deposit_liquidity_handler amount now v p).2 = none ∧
    (withdraw_liquidity_handler amount now
        (deposit_liquidity_handler amount now v p).1.1
        (deposit_liquidity_handler amount now v p).1.2).2
      = Except.ok (amount - amount * 200 / 10000) ∧
    (withdraw_liquidity_handler amount now
        (deposit_liquidity_handler amount now v p).1.1
        (deposit_liquidity_handler amount now v p).1.2).1.1.tvl = v.tvl ∧
    (withdraw_liquidity_handler amount now
        (deposit_liquidity_handler amount now v p).1.1
        (deposit_liquidity_handler amount now v p).1.2).1.2.amount
      = p.amount := by
  rw [deposit_liquidity_handler_success amount now v p h1 h2]
  dsimp only
  unfold withdraw_liquidity_handler
  dsimp only
  rw [if_neg (show ¬(p.amount + amount < amount) by omega)]
  rw [if_neg (show ¬(v.tvl + amount < amount) by omega)]
  rw [show now - now = 0 by omega]
  have hfee : withdrawal_fee_bps 0 = 200 := by
    norm_num [withdrawal_fee_bps, HOURS_60_IN_SECONDS, WITHDRAWAL_FEE_TIER_1]
  rw [hfee]
  rw [if_pos (show (200 : Nat) > 0 by norm_num)]
  rw [show checkedMul amount 200 = some (amount * 200) by
    unfold checkedMul; exact if_pos h3]
  rw [show (some (amount * 200)).bind (fun x => checkedDiv x 10000)
      = some (amount * 200 / 10000) by
    unfold checkedDiv; norm_num]
  dsimp only
  have hpen : amount * 200 / 10000 ≤ amount := by
    have hd : amount * 200 / 10000 ≤ amount * 10000 / 10000 :=
      Nat.div_le_div_right (Nat.mul_le_mul_left amount (by norm_num))
    rwa [Nat.mul_div_cancel amount (by norm_num)] at hd
  rw [checkedSub_of_le hpen]
  rw [checkedSub_of_le (show amount ≤ v.tvl + amount by omega)]
  rw [checkedSub_of_le (show amount ≤ p.amount + amount by omega)]
  refine ⟨rfl, rfl, ?_, ?_⟩
  · simp
  · simp

/-- Witness for C6: the roundtrip theorem at `amount = 10000` on empty
accounts; the payout is `10000 - 200 = 9800`. -/
theorem claim6_witness :
    (deposit_liquidity_handler 10000 0 (testVault 0) (testPosition 0)).2
      = none ∧
    (withdraw_liquidity_handler 10000 0
        (deposit_liquidity_handler 10000 0 (testVault 0) (testPosition 0)).1.1
        (deposit_liquidity_handler 10000 0 (testVault 0) (testPosition 0)).1.2).2
      = Except.ok (10000 - 10000 * 200 / 10000) ∧
    (withdraw_liquidity_handler 10000 0
        (deposit_liquidity_handler 10000 0 (testVault 0) (testPosition 0)).1.1
        (deposit_liquidity_handler 10000 0 (testVault 0) (testPosition 0)).1.2).1.1.tvl
      = (testVault 0).tvl ∧
    (withdraw_liquidity_handler 10000 0
        (deposit_liquidity_handler 10000 0 (testVault 0) (testPosition 0)).1.1
        (deposit_liquidity_handler 10000 0 (testVault 0) (testPosition 0)).1.2).1.2.amount
      = (testPosition 0).amount :=
  claim6_roundtrip 10000 0 (testVault 0) (testPosition 0) (by decide)
    (by decide) (by decide)

/-! ## Claim C1 -/

theorem checkedMul128_eq_some {a b c : Nat} (h : checkedMul128 a b = some c) :
    c = a * b ∧ a * b < U128_MOD := by
  unfold checkedMul128 at h
  split_ifs at h with hb
  · exact ⟨(Option.some.injEq _ _).mp h.symm, hb⟩

theorem checkedDiv128_eq_some {a b c : Nat} (h : checkedDiv128 a b = some c) :
    c = a / b ∧ b ≠ 0 := by
  unfold checkedDiv128 at h
  split_ifs at h with hb
  · exact ⟨(Option.some.injEq _ _).mp h.symm, hb⟩

/-- Claim C1 counterexample: a successful swap of 3334 at price 1.0 on
balanced vaults (health 1, tier percentages 70/15/15) charges fee 1 but
records fee shares 0, 0, 0 - their sum is 0, not the fee charged. -/
theorem claim1_counterexample :
    (swap_handler 3334 0 1000000000 0 (testVault 10000) (testVault 10000)).2
      = Except.ok ⟨3333, 1, 0, 0, 0⟩ ∧ 0 + 0 + 0 ≠ 1 := by
  constructor
  · have hsp : calculate_spread (testVault 10000).tvl (testVault 10000).tvl
        = 3 := calculate_spread_eq_three _ _
    have hdr : calculate_drift (testVault 10000).tvl (testVault 10000).tvl
        = 0 := by
      norm_num [calculate_drift, calculate_vault_health, testVault]
    have hfa : calculate_fee_allocation (testVault 10000).tvl
        (testVault 10000).tvl = (15, 15) := by
      norm_num [calculate_fee_allocation, calculate_vault_health, testVault]
    unfold swap_handler
    dsimp only
    rw [hsp, hdr, hfa]
    norm_num [calculate_amount_out, f64ToU64, checkedMul128, checkedDiv128,
      checkedMul, checkedDiv, checkedSub, checkedAdd, tryIntoU64, U64_MOD,
      U128_MOD, PRICE_SCALE, LP_FEE_PERCENT, testVault, Option.bind]
  · decide

/-- Claim C1 (amended): for every successful swap the three recorded fee
shares are the floored percentages `fee*70/100`, `fee*pda/100`,
`fee*protocol/100` with the percentages summing to 100, so their sum never
exceeds the charged fee and falls short of it by at most 2 units (the
truncation remainder); exact equality holds only when the divisions are
exact. -/
theorem claim1_fee_split_bounds (amount_in minimum_amount_out oracle_price :
    Nat) (now : Int) (sv tv : VaultAccount) (s : VaultAccount × VaultAccount)
    (r : SwapResult)
    (h : swap_handler amount_in minimum_amount_out oracle_price now sv tv
      = (s, .ok r)) :
    r.lp_fee_amount + r.pda_fee_amount + r.protocol_fee_amount
        ≤ r.fee_amount ∧
    r.fee_amount ≤
      r.lp_fee_amount + r.pda_fee_amount + r.protocol_fee_amount + 2 := by
  unfold swap_handler at h
  dsimp only at h
  split at h
  · simp at h
  · rename_i amount_out fee_amount hcalc
    split_ifs at h with hs1 hs2
    · simp at h
    · simp at h
    · split at h
      · simp at h
      · rename_i lp_fee hlpeq
        split at h
        · simp at h
        · rename_i pda_fee hpdaeq
          split at h
          · simp at h
          · rename_i prot_fee hproteq
            split at h
            · simp at h
            · rename_i st hsteq
              split at h
              · simp at h
              · rename_i tt htteq
                split at h
                · simp at h
                · rename_i f1 hf1
                  split at h
                  · simp at h
                  · rename_i f2 hf2
                    split at h
                    · simp at h
                    · rename_i f3 hf3
                      injection h with ha hb
                      injection hb with hr
                      subst hr
                      dsimp only
                      rcases Option.bind_eq_some.mp hlpeq with ⟨x1, hx1, hd1⟩
                      obtain ⟨hx1v, -⟩ := checkedMul_eq_some hx1
                      obtain ⟨hlpv, -⟩ := checkedDiv_eq_some hd1
                      rcases Option.bind_eq_some.mp hpdaeq with ⟨x2, hx2, hd2⟩
                      obtain ⟨hx2v, -⟩ := checkedMul_eq_some hx2
                      obtain ⟨hpdav, -⟩ := checkedDiv_eq_some hd2
                      rcases Option.bind_eq_some.mp hproteq with ⟨x3, hx3, hd3⟩
                      obtain ⟨hx3v, -⟩ := checkedMul_eq_some hx3
                      obtain ⟨hprotv, -⟩ := checkedDiv_eq_some hd3
                      subst hx1v
                      subst hx2v
                      subst hx3v
                      have hsum := calculate_fee_allocation_sum sv.tvl tv.tvl
                      have e1 : fee_amount * LP_FEE_PERCENT +
                          fee_amount * (calculate_fee_allocation sv.tvl tv.tvl).1 +
                          fee_amount * (calculate_fee_allocation sv.tvl tv.tvl).2
                            = fee_amount * 100 := by
                        have e2 : fee_amount * LP_FEE_PERCENT +
                            fee_amount * (calculate_fee_allocation sv.tvl tv.tvl).1 +
                            fee_amount * (calculate_fee_allocation sv.tvl tv.tvl).2
                              = fee_amount * (LP_FEE_PERCENT +
                                ((calculate_fee_allocation sv.tvl tv.tvl).1 +
                                 (calculate_fee_allocation sv.tvl tv.tvl).2)) := by
                          ring
                        rw [e2, hsum]
                        norm_num [LP_FEE_PERCENT]
                      set y := fee_amount *
                        (calculate_fee_allocation sv.tvl tv.tvl).1 with hy
                      set z := fee_amount *
                        (calculate_fee_allocation sv.tvl tv.tvl).2 with hz
                      simp only [LP_FEE_PERCENT] at hlpv e1
                      omega

/-- Witness for C1: the bounds theorem applied to the concrete successful
swap with fee 1 and shares 0, 0, 0. -/
theorem claim1_witness :
    (⟨3333, 1, 0, 0, 0⟩ : SwapResult).lp_fee_amount +
        (⟨3333, 1, 0, 0, 0⟩ : SwapResult).pda_fee_amount +
        (⟨3333, 1, 0, 0, 0⟩ : SwapResult).protocol_fee_amount
      ≤ (⟨3333, 1, 0, 0, 0⟩ : SwapResult).fee_amount ∧
    (⟨3333, 1, 0, 0, 0⟩ : SwapResult).fee_amount ≤
      (⟨3333, 1, 0, 0, 0⟩ : SwapResult).lp_fee_amount +
        (⟨3333, 1, 0, 0, 0⟩ : SwapResult).pda_fee_amount +
        (⟨3333, 1, 0, 0, 0⟩ : SwapResult).protocol_fee_amount + 2 := by
  have h : swap_handler 3334 0 1000000000 0 (testVault 10000)
      (testVault 10000) = (((swap_handler 3334 0 1000000000 0
        (testVault 10000) (testVault 10000)).1), .ok ⟨3333, 1, 0, 0, 0⟩) := by
    have hsp : calculate_spread (testVault 10000).tvl (testVault 10000).tvl
        = 3 := calculate_spread_eq_three _ _
    have hdr : calculate_drift (testVault 10000).tvl (testVault 10000).tvl
        = 0 := by
      norm_num [calculate_drift, calculate_vault_health, testVault]
    have hfa : calculate_fee_allocation (testVault 10000).tvl
        (testVault 10000).tvl = (15, 15) := by
      norm_num [calculate_fee_allocation, calculate_vault_health, testVault]
    unfold swap_handler
    dsimp only
    rw [hsp, hdr, hfa]
    norm_num [calculate_amount_out, f64ToU64, checkedMul128, checkedDiv128,
      checkedMul, checkedDiv, checkedSub, checkedAdd, tryIntoU64, U64_MOD,
      U128_MOD, PRICE_SCALE, LP_FEE_PERCENT, testVault, Option.bind]
  exact claim1_fee_split_bounds 3334 0 1000000000 0 (testVault 10000)
    (testVault 10000) _ ⟨3333, 1, 0, 0, 0⟩ h

/-! ## Claim C7 -/

/-- Claim C7 counterexample: with `tvl = 1`, `accrued_lp_fees = 2^32` and
`position.amount = 2^32 + 1`, the claim succeeds and pays `2^32`, yet
`floor(amount * accrued_lp_fees / tvl) = 2^64 + 2^32`: the `as u64`
narrowing in `calculate_lp_rewards` wrapped the quotient, so a successful
claim does not pay the claimed floor value. -/
theorem claim7_counterexample :
    (distribute_incentives_handler 0 ⟨1, 4294967296, 0, 0, 0, 0, 0⟩
        (testPosition 4294967297)).2 = Except.ok 4294967296 ∧
    (testPosition 4294967297).amount * 4294967296 / 1 ≠ 4294967296 := by
  constructor
  · decide
  · decide

/-- Claim C7 (amended): whenever the true quotient
`position.amount * accrued_lp_fees / tvl` fits in `u64`, a successful
claim pays exactly that floored quotient, the LP fee bucket decreases by
exactly the reward, and the position's cumulative claimed total increases
by the same amount. -/
theorem claim7_reward_accounting (now : Int) (v : VaultAccount)
    (p : LPPosition) (s : VaultAccount × LPPosition) (r : Nat)
    (h : distribute_incentives_handler now v p = (s, .ok r))
    (hfit : p.amount * v.accrued_lp_fees / v.tvl < U64_MOD) :
    r = p.amount * v.accrued_lp_fees / v.tvl ∧
    r ≤ v.accrued_lp_fees ∧
    s.1.accrued_lp_fees = v.accrued_lp_fees - r ∧
    s.2.rewards_claimed = p.rewards_claimed + r := by
  unfold distribute_incentives_handler at h
  dsimp only at h
  split_ifs at h with h1 h2
  · simp at h
  · simp at h
  · split at h
    · simp at h
    · rename_i reward hcalc
      split_ifs at h with h3
      · simp at h
      · split at h
        · simp at h
        · rename_i f hsub
          split at h
          · simp at h
          · rename_i rc hadd
            injection h with ha hb
            injection hb with hr
            subst hr
            subst ha
            obtain ⟨hfv, hle⟩ := checkedSub_eq_some hsub
            obtain ⟨hrc, -⟩ := checkedAdd_eq_some hadd
            unfold calculate_lp_rewards at hcalc
            split_ifs at hcalc with htvl
            · injection hcalc with h0
              exact absurd h0.symm h3
            · split at hcalc
              · simp at hcalc
              · rename_i lp hbind
                injection hcalc with hlp
                rcases Option.bind_eq_some.mp hbind with ⟨x, hx1, hx2⟩
                obtain ⟨hxv, -⟩ := checkedMul128_eq_some hx1
                obtain ⟨hlpv, -⟩ := checkedDiv128_eq_some hx2
                subst hxv
                subst hlpv
                rw [Nat.mod_eq_of_lt hfit] at hlp
                refine ⟨hlp.symm, ?_, ?_, ?_⟩
                · omega
                · dsimp only
                  omega
                · dsimp only
                  omega

/-- Witness for C7: the accounting theorem applied to the spec scenario
`accrued_lp_fees = 1000`, `tvl = 10000`, `amount = 2500`: the reward is
250 and the bucket is left at 750. -/
theorem claim7_witness :
    (250 : Nat) = (testPosition 2500).amount *
        (⟨10000, 1000, 0, 0, 0, 0, 0⟩ : VaultAccount).accrued_lp_fees /
        (⟨10000, 1000, 0, 0, 0, 0, 0⟩ : VaultAccount).tvl ∧
    (250 : Nat) ≤
      (⟨10000, 1000, 0, 0, 0, 0, 0⟩ : VaultAccount).accrued_lp_fees ∧
    ((⟨10000, 750, 0, 0, 0, 0, 0⟩, ⟨2500, 0, 250, 0⟩) :
        VaultAccount × LPPosition).1.accrued_lp_fees
      = (⟨10000, 1000, 0, 0, 0, 0, 0⟩ : VaultAccount).accrued_lp_fees - 250 ∧
    ((⟨10000, 750, 0, 0, 0, 0, 0⟩, ⟨2500, 0, 250, 0⟩) :
        VaultAccount × LPPosition).2.rewards_claimed
      = (testPosition 2500).rewards_claimed + 250 :=
  claim7_reward_accounting 0 ⟨10000, 1000, 0, 0, 0, 0, 0⟩ (testPosition 2500)
    (⟨10000, 750, 0, 0, 0, 0, 0⟩, ⟨2500, 0, 250, 0⟩) 250 (by decide)
    (by decide)
